import Mathlib

/-!
Verification development for the `TabbyAgent` core of `prologic/tabby`
(`clients/tabby-agent/src/TabbyAgent.ts`).

The agent is embedded shallowly: its mutable fields become an explicit
`AgentState`, each method becomes a state-passing function, and the
observable side effects of a method call (network requests, event
emissions, logger/auth/api rebinding, cache accesses, timer lifecycle)
are collected in an explicit `Effect` trace.  Network outcomes are a
parameter (`ApiOutcome`), since the remote server is outside the program.

External collaborators used by the file under analysis but not part of
it (the npm `deepmerge` and `deep-equal` packages, and the repository
helpers `splitLines`, `isBlank`, `CompletionCache`) are modelled where
they are needed; each such definition documents its provenance.
-/

namespace Tabby

/-- JSON-like configuration values, the shape manipulated by `deepmerge` /
`deep-equal` at `TabbyAgent.ts` lines 155-156 (`AgentConfig` is a nested
record of strings / numbers / booleans; we also include arrays and null so
the merge semantics can be stated in full generality). -/
inductive CfgValue where
  | str (s : String)
  | num (n : Int)
  | boolean (b : Bool)
  | null
  | arr (xs : List CfgValue)
  | obj (fields : List (String × CfgValue))
deriving Repr

/-- Key lookup in a JS object modelled as an association list
(`source[key]` access; first binding wins, JS objects have unique keys). -/
def lookupField (k : String) : List (String × CfgValue) → Option CfgValue
  | [] => none
  | (k', v) :: rest => if k' = k then some v else lookupField k rest

/-- Whether a JS object has a given own key (`key in target`). -/
def hasField (k : String) (fields : List (String × CfgValue)) : Bool :=
  (lookupField k fields).isSome

mutual

/-- Models the npm `deepmerge` package applied with default options, as
called at `TabbyAgent.ts` line 155 (`deepMerge(this.config, config)`).
Default behaviour of the package: when both sides are arrays the result is
`target.concat(source)` (the documented default `arrayMerge` concatenates);
when both sides are plain objects the keys are merged recursively
(`mergeObject`); in every other case the source value wins. -/
def deepMerge : CfgValue → CfgValue → CfgValue
  | .arr ta, .arr sa => .arr (ta ++ sa)
  | .obj tf, .obj sf =>
      .obj (mergeFields tf sf ++ sf.filter (fun q => !hasField q.1 tf))
  | _, s => s

/-- The target-keys pass of npm `deepmerge`'s `mergeObject`: every target
key is kept in its original position; if the source also has the key the
two values are merged recursively (which, for a non-mergeable source value,
yields the source value — exactly what `mergeObject`'s else-branch does).
Source-only keys are appended afterwards by `deepMerge`. -/
def mergeFields : List (String × CfgValue) → List (String × CfgValue) → List (String × CfgValue)
  | [], _ => []
  | (k, v) :: rest, sf =>
      (match lookupField k sf with
       | some w => (k, deepMerge v w)
       | none => (k, v)) :: mergeFields rest sf

end

mutual

/-- Models the npm `deep-equal` package as used at `TabbyAgent.ts` line
156 on well-formed configuration records: structural equality.  (For
values produced by `deepMerge current incoming`, key order always follows
`current`, so order-sensitivity does not diverge from the package.) -/
def cfgBeq : CfgValue → CfgValue → Bool
  | .str a, .str b => a = b
  | .num a, .num b => a = b
  | .boolean a, .boolean b => a = b
  | .null, .null => true
  | .arr a, .arr b => cfgListBeq a b
  | .obj a, .obj b => cfgFieldsBeq a b
  | _, _ => false

/-- Element-wise `cfgBeq` on arrays. -/
def cfgListBeq : List CfgValue → List CfgValue → Bool
  | [], [] => true
  | a :: as, b :: bs => cfgBeq a b && cfgListBeq as bs
  | _, _ => false

/-- Field-wise `cfgBeq` on objects. -/
def cfgFieldsBeq : List (String × CfgValue) → List (String × CfgValue) → Bool
  | [], [] => true
  | (k1, v1) :: as, (k2, v2) :: bs => k1 = k2 && cfgBeq v1 v2 && cfgFieldsBeq as bs
  | _, _ => false

end

/-- Equality of two optional values under `cfgBeq`, modelling the strict
comparison `this.config.server.endpoint !== this.auth?.endpoint`
(`TabbyAgent.ts` line 66), where either side may be `undefined`. -/
def optCfgBeq : Option CfgValue → Option CfgValue → Bool
  | none, none => true
  | some a, some b => cfgBeq a b
  | _, _ => false

/-- `AgentStatus` from `Agent.ts` as used throughout `TabbyAgent.ts`:
`"notInitialized" | "ready" | "disconnected" | "unauthorized"`. -/
inductive AgentStatus where
  | notInitialized
  | ready
  | disconnected
  | unauthorized
deriving DecidableEq, Repr

/-- The shape of a rejection inspected by `callApi`'s catch handler
(`TabbyAgent.ts` lines 100-112): a cancellation flag (`error.isCancelled`),
an error name (`error.name === "ApiError"`), and an optional HTTP status
code (`error.status`, absent for non-API errors). -/
structure ApiError where
  isCancelled : Bool
  name : String
  statusCode : Option Int
deriving DecidableEq, Repr

/-- Outcome of one wrapped API call: the promise either resolves
(`success`) or rejects with an error (`failure`).  The outcome is an input
of the model because the remote server is external. -/
inductive ApiOutcome where
  | success
  | failure (e : ApiError)
deriving DecidableEq, Repr

/-- Observable side effects of agent operations, in program order. -/
inductive Effect where
  /-- `allLoggers.forEach((logger) => logger.level = ...)` in `applyConfig`. -/
  | setLogLevel
  /-- `this.anonymousUsageLogger.disabled = ...` in `applyConfig`. -/
  | setUsageTracking
  /-- `Auth.create` + `auth.on("updated", ...)` in `applyConfig`. -/
  | rebuildAuth
  /-- `new TabbyApi(...)` in `applyConfig` / `onAuthUpdated`. -/
  | rebuildApi
  /-- `super.emit("configUpdated", event)` in `updateConfig`. -/
  | emitConfigUpdated
  /-- `super.emit("statusChanged", event)` in `changeStatus`. -/
  | emitStatusChanged (st : AgentStatus)
  /-- Network request issued by `callApi(this.api.v1.health, {})`. -/
  | apiHealth
  /-- Network request issued by `callApi(this.api.v1.completion, ...)`;
  carries the payload segments passed to the server. -/
  | apiCompletion (language : String) (pre suf : List Char)
  /-- Network request issued by `callApi(this.api.v1.event, request)`. -/
  | apiEvent
  /-- `completionCache.has` / `.get` in `getCompletions`. -/
  | cacheRead
  /-- `completionCache.set` in `getCompletions`. -/
  | cacheWrite
  /-- `logger.setBindings({ client })` in `initialize`. -/
  | setLogBindings
  /-- `anonymousUsageLogger.event("AgentInitialized", ...)` in `initialize`. -/
  | usageEvent
  /-- `auth.requestToken()` in `startAuth`. -/
  | authRequestToken
  /-- `setInterval(...)` in the constructor. -/
  | setTimer
  /-- A `clearInterval` on `tryingConnectTimer`.  Present in the effect
  vocabulary so that its absence from every operation's trace can be
  stated; no statement in `TabbyAgent.ts` produces it. -/
  | clearTimer
deriving DecidableEq, Repr

/-- A completion request (`Agent.ts`): the full document text (modelled as
a character list, with `position` a character index), the cursor position,
and the language tag. -/
structure CompletionRequest where
  text : List Char
  position : Nat
  language : String
deriving DecidableEq, Repr

/-- A completion response: an opaque id and a sequence of candidate
choices (each modelled by its text). -/
structure CompletionResponse where
  id : String
  choices : List String
deriving DecidableEq, Repr

/-- Modelled from the spec: `CompletionCache` (in
`clients/tabby-agent/src/CompletionCache.ts`, not part of the analysed
sources) keys entries by a deterministic fingerprint derived from
`(text, position, language)`.  We take the triple itself as fingerprint. -/
def fingerprintOf (r : CompletionRequest) : List Char × Nat × String :=
  (r.text, r.position, r.language)

/-- The cache contents: most-recent-wins association list from
fingerprints to responses. -/
def CacheMap : Type := List ((List Char × Nat × String) × CompletionResponse)

/-- Modelled from the spec: cache lookup (`completionCache.has` /
`completionCache.get`) by fingerprint. -/
def cacheGet (cache : CacheMap) (r : CompletionRequest) : Option CompletionResponse :=
  (List.find? (fun e => decide (e.1 = fingerprintOf r)) cache).map (fun e => e.2)

/-- Modelled from the spec: cache insertion (`completionCache.set`),
most-recent-wins. -/
def cacheSet (cache : CacheMap) (r : CompletionRequest) (v : CompletionResponse) : CacheMap :=
  (fingerprintOf r, v) :: cache

/-- The mutable fields of a `TabbyAgent` instance that the analysed
methods read or write: `this.config`, `this.status`,
`this.auth?.endpoint` (the endpoint the current `Auth` instance is bound
to; `none` while `this.auth` is still undefined), and the completion
cache contents. -/
structure AgentState where
  config : CfgValue
  status : AgentStatus
  authEndpoint : Option CfgValue
  cache : CacheMap

/-- `config.server.endpoint` (read in `applyConfig`). -/
def serverEndpoint (c : CfgValue) : Option CfgValue :=
  match c with
  | .obj fs => (lookupField "server" fs).bind (fun s =>
      match s with
      | .obj sf => lookupField "endpoint" sf
      | _ => none)
  | _ => none

/-- `changeStatus` (`TabbyAgent.ts` lines 78-85): assign and emit
`statusChanged` only when the new status differs from the current one. -/
def changeStatus (st : AgentStatus) (s : AgentState) : AgentState × List Effect :=
  if s.status = st then (s, [])
  else ({ s with status := st }, [Effect.emitStatusChanged st])

/-- The resolution/rejection handlers installed by `callApi`
(`TabbyAgent.ts` lines 87-119), applied to one outcome: the request
effect, then the status feedback of the `then`/`catch` chain.  On
cancellation the catch handler only logs; on a 401/403/405 `ApiError` it
moves to `unauthorized`; on any other `ApiError`, and on any unclassified
error, it moves to `disconnected`. -/
def callApiStep (reqEff : Effect) (o : ApiOutcome) (s : AgentState) :
    AgentState × List Effect :=
  let fed :=
    match o with
    | .success => changeStatus .ready s
    | .failure e =>
        if e.isCancelled then (s, [])
        else if e.name = "ApiError" &&
                (match e.statusCode with
                 | some c => [401, 403, 405].contains c
                 | none => false) then
          changeStatus .unauthorized s
        else if e.name = "ApiError" then
          changeStatus .disconnected s
        else
          changeStatus .disconnected s
  (fed.1, reqEff :: fed.2)

/-- `healthCheck` (`TabbyAgent.ts` lines 121-123): the wrapped health
probe; the trailing `.catch(() => {})` suppresses the rejection for the
caller but adds no state change or effect. -/
def healthCheck (o : ApiOutcome) (s : AgentState) : AgentState × List Effect :=
  callApiStep .apiHealth o s

/-- `applyConfig` (`TabbyAgent.ts` lines 63-71): set every logger level,
propagate the usage-tracking opt-out, rebuild `Auth` when the configured
endpoint differs from the endpoint the current `Auth` is bound to, and
rebuild the API client. -/
def applyConfig (s : AgentState) : AgentState × List Effect :=
  let eps := serverEndpoint s.config
  let auth :=
    if optCfgBeq eps s.authEndpoint then (s, ([] : List Effect))
    else ({ s with authEndpoint := eps }, [Effect.rebuildAuth])
  (auth.1, [Effect.setLogLevel, Effect.setUsageTracking] ++ auth.2 ++ [Effect.rebuildApi])

/-- `onAuthUpdated` (`TabbyAgent.ts` lines 73-76): rebuild the API client
and run a health probe. -/
def onAuthUpdated (o : ApiOutcome) (s : AgentState) : AgentState × List Effect :=
  let hc := healthCheck o s
  (hc.1, Effect.rebuildApi :: hc.2)

/-- `updateConfig` (`TabbyAgent.ts` lines 154-165): deep-merge the partial
config into the current one; when the result differs, replace the config,
re-apply it and emit `configUpdated`; in both branches run a health probe
and return whether the agent has left `notInitialized`. -/
def updateConfig (pcfg : CfgValue) (probe : ApiOutcome) (s : AgentState) :
    AgentState × List Effect × Bool :=
  let merged := deepMerge s.config pcfg
  if cfgBeq s.config merged then
    let hc := healthCheck probe s
    (hc.1, hc.2, decide (hc.1.status ≠ .notInitialized))
  else
    let s1 := { s with config := merged }
    let ac := applyConfig s1
    let hc := healthCheck probe ac.1
    (hc.1, ac.2 ++ [Effect.emitConfigUpdated] ++ hc.2,
      decide (hc.1.status ≠ .notInitialized))

/-- `initialize` (`TabbyAgent.ts` lines 138-152): optionally set log
bindings from the client metadata, optionally apply a one-time config via
`updateConfig`, record the `AgentInitialized` usage event, and return
whether the agent has left `notInitialized`. -/
def initAgent (cfgOpt : Option CfgValue) (hasClient : Bool) (probe : ApiOutcome)
    (s : AgentState) : AgentState × List Effect × Bool :=
  let clientEffs := if hasClient then [Effect.setLogBindings] else []
  let upd :=
    match cfgOpt with
    | some cfg =>
        let u := updateConfig cfg probe s
        (u.1, u.2.1)
    | none => (s, [])
  (upd.1, clientEffs ++ upd.2 ++ [Effect.usageEvent],
    decide (upd.1.status ≠ .notInitialized))

/-- `startAuth` (`TabbyAgent.ts` lines 175-189): run a health probe, then
request a token only when the resulting status is `unauthorized`. -/
def startAuth (probe : ApiOutcome) (s : AgentState) : AgentState × List Effect :=
  let hc := healthCheck probe s
  if hc.1.status = .unauthorized then (hc.1, hc.2 ++ [Effect.authRequestToken])
  else (hc.1, hc.2)

/-- `postEvent` (`TabbyAgent.ts` lines 231-236): fail fast while
`notInitialized` (the returned `Bool` records whether the precondition
held), otherwise issue the wrapped event call. -/
def postEvent (o : ApiOutcome) (s : AgentState) : AgentState × List Effect × Bool :=
  if s.status = .notInitialized then (s, [], false)
  else
    let c := callApiStep .apiEvent o s
    (c.1, c.2, true)

/-- `TabbyAgent.tryConnectInterval` (`TabbyAgent.ts` line 41):
`1000 * 30` milliseconds. -/
def tryConnectInterval : Nat := 1000 * 30

/-- The body of the recurring timer callback installed by the constructor
(`TabbyAgent.ts` lines 47-52): a health probe happens only while the
status is `disconnected`. -/
def timerTick (o : ApiOutcome) (s : AgentState) : AgentState × List Effect :=
  if s.status = .disconnected then healthCheck o s else (s, [])

/-- `TabbyAgent.create` together with the private constructor
(`TabbyAgent.ts` lines 44-61): a fresh agent starts `notInitialized` with
the default config, an empty cache and no `Auth` bound; the constructor
installs the recurring timer, and `create` then runs `applyConfig`. -/
def createAgent (defaultConfig : CfgValue) : AgentState × List Effect :=
  let s0 : AgentState :=
    { config := defaultConfig, status := .notInitialized,
      authEndpoint := none, cache := [] }
  let ac := applyConfig s0
  (ac.1, Effect.setTimer :: ac.2)

/-- Modelled from the spec: `splitLines` (in
`clients/tabby-agent/src/utils.ts`, not part of the analysed sources)
splits a text into lines while preserving the line-ending characters, so
that the segments concatenate losslessly.  Each line extends up to and
including its terminating newline; a final line without a newline is kept
as is; the empty text has no lines. -/
def splitLines : List Char → List (List Char)
  | [] => []
  | c :: rest =>
      if c = '\n' then [c] :: splitLines rest
      else
        match splitLines rest with
        | [] => [[c]]
        | l :: ls => (c :: l) :: ls

/-- Modelled from the spec: `isBlank` (in
`clients/tabby-agent/src/utils.ts`, not part of the analysed sources)
holds when the text is empty or whitespace only. -/
def isBlank (s : List Char) : Bool :=
  s.all Char.isWhitespace

/-- The `{ prefix, suffix }` pair produced by `createSegments`. -/
structure Segments where
  pre : List Char
  suf : List Char
deriving DecidableEq, Repr

/-- `createSegments` (`TabbyAgent.ts` lines 125-136): split the text at
`position`, keep at most the last 20 lines before the cursor and at most
the first 20 lines after it, and join each side back together.
`text.slice(0, position)` is `take`, `text.slice(position)` is `drop`, and
`lines.slice(Math.max(lines.length - maxLines, 0))` is `drop` with
truncated subtraction. -/
def createSegments (r : CompletionRequest) : Segments :=
  let maxLines := 20
  let before := r.text.take r.position
  let beforeLines := splitLines before
  let after := r.text.drop r.position
  let afterLines := splitLines after
  { pre := (beforeLines.drop (beforeLines.length - maxLines)).flatten,
    suf := (afterLines.take maxLines).flatten }

/-- What `getCompletions` hands back to its caller: either the synchronous
`throw` of the not-initialized precondition, or a cancelable promise that
resolves with a response / rejects with the network error.  The
`CancelBehavior` records what the handle's cancellation callback does. -/
inductive CancelBehavior where
  /-- A bare `new CancelablePromise((resolve) => ...)` with no `onCancel`
  handler: cancelling it aborts nothing. -/
  | noop
  /-- The wrapper `cancelable(promise..., () => promise.cancel())`:
  cancelling propagates to the underlying transport call. -/
  | cancelsNetwork
deriving DecidableEq, Repr

/-- The result of a `getCompletions` call. -/
inductive CompletionsResult where
  /-- `throw new Error("Agent is not initialized")`. -/
  | notInitializedError
  | resolved (resp : CompletionResponse) (cancel : CancelBehavior)
  | rejected (e : ApiError) (cancel : CancelBehavior)
deriving DecidableEq, Repr

/-- The external inputs of one `getCompletions` call: the uuid the
blank-path response id is built from, and the network outcome with the raw
response delivered on success. -/
structure CompletionEnv where
  uuidStr : String
  outcome : ApiOutcome
  raw : CompletionResponse

/-- `getCompletions` (`TabbyAgent.ts` lines 191-229).  `pp` is the
external `postprocess` collaborator (a pure transform).  Fail fast while
`notInitialized`; on a cache hit resolve the cached response with a no-op
cancel; on a blank windowed prefix resolve `{ id: "agent-" + uuid,
choices: [] }` with a no-op cancel; otherwise issue the wrapped completion
call and, on success, store the post-processed response in the cache. -/
def getCompletions (pp : CompletionRequest → CompletionResponse → CompletionResponse)
    (env : CompletionEnv) (r : CompletionRequest) (s : AgentState) :
    AgentState × List Effect × CompletionsResult :=
  if s.status = .notInitialized then (s, [], .notInitializedError)
  else
    match cacheGet s.cache r with
    | some resp => (s, [Effect.cacheRead], .resolved resp .noop)
    | none =>
        let segs := createSegments r
        if isBlank segs.pre then
          (s, [Effect.cacheRead],
            .resolved { id := "agent-" ++ env.uuidStr, choices := [] } .noop)
        else
          let c := callApiStep (.apiCompletion r.language segs.pre segs.suf) env.outcome s
          match env.outcome with
          | .success =>
              let resp := pp r env.raw
              ({ c.1 with cache := cacheSet c.1.cache r resp },
                Effect.cacheRead :: c.2 ++ [Effect.cacheWrite],
                .resolved resp .cancelsNetwork)
          | .failure e =>
              (c.1, Effect.cacheRead :: c.2, .rejected e .cancelsNetwork)

/-- The spec's status transition rule, stated in its own words (§4.1):
success goes to Ready; a failure classified as canceled causes no
transition; a failure classified as auth-rejected (status code in
401/403/405) goes to Unauthorized; every other failure goes to
Disconnected. -/
def statusRule (o : ApiOutcome) (st : AgentStatus) : AgentStatus :=
  match o with
  | .success => .ready
  | .failure e =>
      if e.isCancelled then st
      else if e.name = "ApiError" &&
              (match e.statusCode with
               | some c => [401, 403, 405].contains c
               | none => false) then .unauthorized
      else .disconnected

/-- A sample agent state used to instantiate hypotheses of the claim
theorems at concrete inputs. -/
def sampleConfig : CfgValue :=
  .obj [("server", .obj [("endpoint", .str "http://localhost:8080")]),
        ("logs", .obj [("level", .str "silent")]),
        ("anonymousUsageTracking", .obj [("disable", .boolean false)])]

/-- A freshly constructed agent (status `notInitialized`). -/
def freshState : AgentState :=
  { config := sampleConfig, status := .notInitialized,
    authEndpoint := some (.str "http://localhost:8080"), cache := [] }

/-- A connected agent (status `ready`). -/
def readyState : AgentState :=
  { config := sampleConfig, status := .ready,
    authEndpoint := some (.str "http://localhost:8080"), cache := [] }

/-- A sample network environment whose completion call succeeds. -/
def okEnv : CompletionEnv :=
  { uuidStr := "0000", outcome := .success,
    raw := { id := "server-1", choices := ["world"] } }

/-- A sample completion request whose context is not blank. -/
def helloRequest : CompletionRequest :=
  { text := ['h', 'i', '\n', 'y', 'o'], position := 2, language := "plaintext" }

/-- Effects excluded by the frame condition of C2: rebuilding the API
client or the `Auth` bridge, and the `configUpdated` notification. -/
def isRebindOrNotifyEff : Effect → Bool
  | .emitConfigUpdated => true
  | .rebuildApi => true
  | .rebuildAuth => true
  | _ => false

/-- An all-whitespace completion request. -/
def blankRequest : CompletionRequest :=
  { text := [' ', ' ', '\n', 'z'], position := 3, language := "plaintext" }

/-- The fields of an object value (empty for non-objects). -/
def objFields : CfgValue → List (String × CfgValue)
  | .obj fs => fs
  | _ => []

/-- Current config used in the C7 witness. -/
def mergeTgt : List (String × CfgValue) :=
  [("files", .arr [.str "a"]), ("nested", .obj [("x", .num 1)])]

/-- Partial config used in the C7 witness. -/
def mergeSrc : List (String × CfgValue) :=
  [("files", .arr [.str "b"]), ("nested", .obj [("y", .num 2)])]

/-- An agent in the `disconnected` state. -/
def disconnectedState : AgentState :=
  { config := sampleConfig, status := .disconnected,
    authEndpoint := some (.str "http://localhost:8080"), cache := [] }

/-! ### Basic lemmas about the embedded operations -/

theorem changeStatus_fst_status (st : AgentStatus) (s : AgentState) :
    (changeStatus st s).1.status = st := by
  unfold changeStatus
  split <;> simp_all

theorem changeStatus_fst_config (st : AgentStatus) (s : AgentState) :
    (changeStatus st s).1.config = s.config := by
  unfold changeStatus
  split <;> simp

theorem changeStatus_fst_cache (st : AgentStatus) (s : AgentState) :
    (changeStatus st s).1.cache = s.cache := by
  unfold changeStatus
  split <;> simp

theorem changeStatus_fst_authEndpoint (st : AgentStatus) (s : AgentState) :
    (changeStatus st s).1.authEndpoint = s.authEndpoint := by
  unfold changeStatus
  split <;> simp

theorem changeStatus_snd_cases (st : AgentStatus) (s : AgentState) :
    (changeStatus st s).2 = [] ∨ (changeStatus st s).2 = [Effect.emitStatusChanged st] := by
  unfold changeStatus
  split
  · exact Or.inl rfl
  · exact Or.inr rfl

theorem callApiStep_fst_status (reqEff : Effect) (o : ApiOutcome) (s : AgentState) :
    (callApiStep reqEff o s).1.status = statusRule o s.status := by
  cases o with
  | success => simpa [callApiStep, statusRule] using changeStatus_fst_status .ready s
  | failure e =>
      unfold callApiStep statusRule
      by_cases hc : e.isCancelled <;>
        simp [hc, changeStatus_fst_status] <;>
        split <;>
        simp [changeStatus_fst_status]

theorem callApiStep_fst_config (reqEff : Effect) (o : ApiOutcome) (s : AgentState) :
    (callApiStep reqEff o s).1.config = s.config := by
  unfold callApiStep
  cases o with
  | success => simpa using changeStatus_fst_config .ready s
  | failure e =>
      by_cases hc : e.isCancelled <;>
        simp [hc, changeStatus_fst_config] <;>
        split <;>
        simp [changeStatus_fst_config]

theorem callApiStep_fst_cache (reqEff : Effect) (o : ApiOutcome) (s : AgentState) :
    (callApiStep reqEff o s).1.cache = s.cache := by
  unfold callApiStep
  cases o with
  | success => simpa using changeStatus_fst_cache .ready s
  | failure e =>
      by_cases hc : e.isCancelled <;>
        simp [hc, changeStatus_fst_cache] <;>
        split <;>
        simp [changeStatus_fst_cache]

theorem callApiStep_fst_authEndpoint (reqEff : Effect) (o : ApiOutcome) (s : AgentState) :
    (callApiStep reqEff o s).1.authEndpoint = s.authEndpoint := by
  unfold callApiStep
  cases o with
  | success => simpa using changeStatus_fst_authEndpoint .ready s
  | failure e =>
      by_cases hc : e.isCancelled <;>
        simp [hc, changeStatus_fst_authEndpoint] <;>
        split <;>
        simp [changeStatus_fst_authEndpoint]

theorem callApiStep_snd_mem (reqEff : Effect) (o : ApiOutcome) (s : AgentState) :
    ∀ x ∈ (callApiStep reqEff o s).2,
      x = reqEff ∨ ∃ st, x = Effect.emitStatusChanged st := by
  intro x hx
  unfold callApiStep at hx
  have hcases : x = reqEff ∨ ∃ st sx, x ∈ (changeStatus st sx).2 := by
    cases o with
    | success =>
        simp only [List.mem_cons] at hx
        rcases hx with h | h
        · exact Or.inl h
        · exact Or.inr ⟨.ready, s, h⟩
    | failure e =>
        by_cases hc : e.isCancelled
        · simp [hc] at hx
          exact Or.inl hx
        · simp only [hc, Bool.false_eq_true, if_false, List.mem_cons] at hx
          rcases hx with h | h
          · exact Or.inl h
          · split at h
            · exact Or.inr ⟨.unauthorized, s, h⟩
            · split at h
              · exact Or.inr ⟨.disconnected, s, h⟩
              · exact Or.inr ⟨.disconnected, s, h⟩
  rcases hcases with h | ⟨st, sx, h⟩
  · exact Or.inl h
  · rcases changeStatus_snd_cases st sx with hz | hz <;> rw [hz] at h
    · simp at h
    · simp at h
      exact Or.inr ⟨st, h⟩

/-! ### Claim C1 -/

/-- C1: after every wrapped API call outcome, the status transition rule
holds — a successful response sets the status to Ready; a failure flagged
as cancelled causes no transition; a failure named `ApiError` with status
code in 401/403/405 sets Unauthorized; every other failure (any other
`ApiError`, or an unclassified error) sets Disconnected.  The left side is
the embedded `callApi` resolution/rejection handling, the right side the
spec's transition table. -/
theorem c1_callApi_status_transition (reqEff : Effect) (o : ApiOutcome) (s : AgentState) :
    (callApiStep reqEff o s).1.status = statusRule o s.status :=
  callApiStep_fst_status reqEff o s

/-! ### Claim C10 -/

/-- C10: `updateConfig` returns `true` exactly when the status after the
merge and the final health probe is not `notInitialized`, in both the
changed and the unchanged branch. -/
theorem c10_updateConfig_result_meaning (pcfg : CfgValue) (o : ApiOutcome) (s : AgentState) :
    (updateConfig pcfg o s).2.2 = true ↔
      (updateConfig pcfg o s).1.status ≠ .notInitialized := by
  by_cases h : cfgBeq s.config (deepMerge s.config pcfg) = true
  · simp [updateConfig, h]
  · simp [updateConfig, h]

/-! ### Claim C6 -/

/-- C6: whenever the status is `notInitialized`, `getCompletions` fails
immediately with the not-initialized error: the state (status, config,
cache) is returned unchanged and the effect trace is empty — no network
request, no cache read, no cache write. -/
theorem c6_getCompletions_notInitialized
    (pp : CompletionRequest → CompletionResponse → CompletionResponse)
    (env : CompletionEnv) (r : CompletionRequest) (s : AgentState)
    (h : s.status = .notInitialized) :
    getCompletions pp env r s = (s, [], .notInitializedError) := by
  unfold getCompletions
  simp [h]

theorem c6_getCompletions_notInitialized_witness :
    freshState.status = .notInitialized ∧
    getCompletions (fun _ resp => resp) okEnv helloRequest freshState =
      (freshState, [], .notInitializedError) :=
  ⟨rfl, c6_getCompletions_notInitialized (fun _ resp => resp) okEnv helloRequest freshState rfl⟩

/-! ### Claim C2 -/

theorem callApiStep_snd_eq (reqEff : Effect) (o : ApiOutcome) (s : AgentState) :
    ∃ t, (callApiStep reqEff o s).2 = reqEff :: t :=
  ⟨_, rfl⟩

/-- C2: when the deep-merged config is deep-equal to the current one,
`updateConfig` keeps the config object, produces exactly the effects of a
health probe (so the probe still happens), and in particular emits no
`configUpdated` event and rebuilds neither the API client nor the Auth
bridge. -/
theorem c2_updateConfig_unchanged_frame (pcfg : CfgValue) (o : ApiOutcome) (s : AgentState)
    (h : cfgBeq s.config (deepMerge s.config pcfg) = true) :
    (updateConfig pcfg o s).1.config = s.config ∧
    (updateConfig pcfg o s).2.1 = (healthCheck o s).2 ∧
    Effect.apiHealth ∈ (updateConfig pcfg o s).2.1 ∧
    (updateConfig pcfg o s).2.1.all (fun e => !isRebindOrNotifyEff e) = true := by
  have hu : updateConfig pcfg o s =
      ((healthCheck o s).1, (healthCheck o s).2,
        decide ((healthCheck o s).1.status ≠ .notInitialized)) := by
    simp [updateConfig, h]
  refine ⟨?_, ?_, ?_, ?_⟩
  · rw [hu]
    exact callApiStep_fst_config Effect.apiHealth o s
  · rw [hu]
  · rw [hu]
    obtain ⟨t, ht⟩ := callApiStep_snd_eq Effect.apiHealth o s
    have h2' : (healthCheck o s).2 = Effect.apiHealth :: t := ht
    rw [h2']
    simp
  · rw [hu]
    rw [List.all_eq_true]
    intro x hx
    rcases callApiStep_snd_mem Effect.apiHealth o s x hx with h' | ⟨st, h'⟩ <;>
      subst h' <;> rfl

theorem c2_updateConfig_unchanged_frame_witness :
    cfgBeq readyState.config (deepMerge readyState.config (.obj [])) = true ∧
    ((updateConfig (.obj []) .success readyState).1.config = readyState.config ∧
     (updateConfig (.obj []) .success readyState).2.1 =
       (healthCheck .success readyState).2 ∧
     Effect.apiHealth ∈ (updateConfig (.obj []) .success readyState).2.1 ∧
     (updateConfig (.obj []) .success readyState).2.1.all
       (fun e => !isRebindOrNotifyEff e) = true) :=
  ⟨rfl, c2_updateConfig_unchanged_frame (.obj []) .success readyState rfl⟩

/-! ### Claim C3 -/

theorem cacheGet_cacheSet (c : CacheMap) (r : CompletionRequest) (v : CompletionResponse) :
    cacheGet (cacheSet c r v) r = some v := by
  simp [cacheGet, cacheSet, List.find?_cons_of_pos]

theorem getCompletions_cache_hit
    (pp : CompletionRequest → CompletionResponse → CompletionResponse)
    (env : CompletionEnv) (r : CompletionRequest) (s : AgentState)
    (v : CompletionResponse)
    (h1 : ¬s.status = .notInitialized)
    (h2 : cacheGet s.cache r = some v) :
    getCompletions pp env r s = (s, [Effect.cacheRead], .resolved v .noop) := by
  unfold getCompletions
  rw [if_neg h1, h2]

/-- C3: out of `notInitialized`, after a first `getCompletions` on a
cache-missed, non-blank request whose network call succeeds — which
resolves with the post-processed response through the network path (the
completion request effect is in its trace) — a second `getCompletions`
for the same request returns the stored response from the cache: its
effect trace is exactly one cache read (no network request), the state is
unchanged, and the cancellation callback of the returned handle is a
no-op. -/
theorem c3_getCompletions_cache_round_trip
    (pp : CompletionRequest → CompletionResponse → CompletionResponse)
    (env env2 : CompletionEnv) (r : CompletionRequest) (s : AgentState)
    (h1 : ¬s.status = .notInitialized)
    (h2 : cacheGet s.cache r = none)
    (h3 : isBlank (createSegments r).pre = false)
    (h4 : env.outcome = .success) :
    (getCompletions pp env r s).2.2 = .resolved (pp r env.raw) .cancelsNetwork ∧
    Effect.apiCompletion r.language (createSegments r).pre (createSegments r).suf
      ∈ (getCompletions pp env r s).2.1 ∧
    getCompletions pp env2 r (getCompletions pp env r s).1 =
      ((getCompletions pp env r s).1, [Effect.cacheRead],
        .resolved (pp r env.raw) .noop) := by
  obtain ⟨u, oc, raw⟩ := env
  simp only at h4
  subst h4
  have hfirst : getCompletions pp ⟨u, .success, raw⟩ r s =
      ({ (callApiStep
            (.apiCompletion r.language (createSegments r).pre (createSegments r).suf)
            .success s).1 with
          cache := cacheSet (callApiStep
            (.apiCompletion r.language (createSegments r).pre (createSegments r).suf)
            .success s).1.cache r (pp r raw) },
        Effect.cacheRead :: (callApiStep
            (.apiCompletion r.language (createSegments r).pre (createSegments r).suf)
            .success s).2 ++ [Effect.cacheWrite],
        .resolved (pp r raw) .cancelsNetwork) := by
    unfold getCompletions
    rw [if_neg h1, h2]
    simp [h3]
  have hst : (getCompletions pp ⟨u, .success, raw⟩ r s).1.status = .ready := by
    rw [hfirst]
    exact changeStatus_fst_status .ready s
  have hcache : cacheGet (getCompletions pp ⟨u, .success, raw⟩ r s).1.cache r
      = some (pp r raw) := by
    rw [hfirst]
    exact cacheGet_cacheSet _ r (pp r raw)
  refine ⟨by rw [hfirst], ?_, ?_⟩
  · rw [hfirst]
    obtain ⟨t, ht⟩ := callApiStep_snd_eq
      (Effect.apiCompletion r.language (createSegments r).pre (createSegments r).suf)
      .success s
    simp [ht]
  · exact getCompletions_cache_hit pp env2 r _ (pp r raw)
      (by rw [hst]; intro hcon; cases hcon) hcache

theorem c3_getCompletions_cache_round_trip_witness :
    (¬readyState.status = .notInitialized ∧
     cacheGet readyState.cache helloRequest = none ∧
     isBlank (createSegments helloRequest).pre = false ∧
     okEnv.outcome = .success) ∧
    ((getCompletions (fun _ resp => resp) okEnv helloRequest readyState).2.2 =
        .resolved okEnv.raw .cancelsNetwork ∧
     Effect.apiCompletion helloRequest.language (createSegments helloRequest).pre
        (createSegments helloRequest).suf
        ∈ (getCompletions (fun _ resp => resp) okEnv helloRequest readyState).2.1 ∧
     getCompletions (fun _ resp => resp) okEnv helloRequest
        (getCompletions (fun _ resp => resp) okEnv helloRequest readyState).1 =
       ((getCompletions (fun _ resp => resp) okEnv helloRequest readyState).1,
         [Effect.cacheRead], .resolved okEnv.raw .noop)) :=
  ⟨⟨by decide, rfl, rfl, rfl⟩,
    c3_getCompletions_cache_round_trip (fun _ resp => resp) okEnv okEnv helloRequest
      readyState (by decide) rfl rfl rfl⟩

/-! ### Claim C4 -/

theorem splitLines_cons_ne_nil (c : Char) (rest : List Char) :
    splitLines (c :: rest) ≠ [] := by
  unfold splitLines
  by_cases hc : c = '\n'
  · simp [hc]
  · rw [if_neg hc]
    cases splitLines rest <;> simp

/-- Line splitting preserves the line-ending characters: joining the lines
back together restores the text exactly. -/
theorem flatten_splitLines : ∀ s : List Char, (splitLines s).flatten = s
  | [] => rfl
  | c :: rest => by
      unfold splitLines
      by_cases hc : c = '\n'
      · subst hc
        rw [if_pos rfl, List.flatten_cons, flatten_splitLines rest]
        rfl
      · rw [if_neg hc]
        cases hsr : splitLines rest with
        | nil =>
            have hrest : rest = [] := by
              cases rest with
              | nil => rfl
              | cons d tl => exact absurd hsr (splitLines_cons_ne_nil d tl)
            subst hrest
            rfl
        | cons l ls =>
            have ih := flatten_splitLines rest
            rw [hsr] at ih
            simp only [List.flatten_cons] at ih ⊢
            rw [List.cons_append, ih]

theorem flatten_take_drop (L : List (List Char)) (k : Nat) :
    (L.take k).flatten ++ (L.drop k).flatten = L.flatten := by
  rw [← List.flatten_append, List.take_append_drop]

/-- C4: `createSegments` keeps, verbatim, the last at-most-20 lines of the
text before the cursor and the first at-most-20 lines of the text after
it: re-attaching the discarded lines restores `text.take p` and
`text.drop p` exactly (no line dropped or duplicated inside the window),
each window is at most 20 lines, and the two halves are contiguous in the
text. -/
theorem c4_createSegments_window (text : List Char) (p : Nat) (lang : String) :
    (createSegments { text := text, position := p, language := lang }).pre =
      ((splitLines (text.take p)).drop ((splitLines (text.take p)).length - 20)).flatten ∧
    (createSegments { text := text, position := p, language := lang }).suf =
      ((splitLines (text.drop p)).take 20).flatten ∧
    ((splitLines (text.take p)).take ((splitLines (text.take p)).length - 20)).flatten ++
        (createSegments { text := text, position := p, language := lang }).pre =
      text.take p ∧
    (createSegments { text := text, position := p, language := lang }).suf ++
        ((splitLines (text.drop p)).drop 20).flatten =
      text.drop p ∧
    ((splitLines (text.take p)).drop ((splitLines (text.take p)).length - 20)).length ≤ 20 ∧
    ((splitLines (text.drop p)).take 20).length ≤ 20 ∧
    text.take p ++ text.drop p = text := by
  refine ⟨rfl, rfl, ?_, ?_, ?_, ?_, List.take_append_drop p text⟩
  · rw [show (createSegments { text := text, position := p, language := lang }).pre =
        ((splitLines (text.take p)).drop
          ((splitLines (text.take p)).length - 20)).flatten from rfl]
    rw [flatten_take_drop, flatten_splitLines]
  · rw [show (createSegments { text := text, position := p, language := lang }).suf =
        ((splitLines (text.drop p)).take 20).flatten from rfl]
    rw [flatten_take_drop, flatten_splitLines]
  · rw [List.length_drop]
    omega
  · have := List.length_take 20 (splitLines (text.drop p))
    omega

/-! ### Claim C5 -/

/-- If everything before the cursor is whitespace, so is the windowed
context before the cursor (it is a suffix of it). -/
theorem createSegments_pre_blank_of_all_whitespace (r : CompletionRequest)
    (h : (r.text.take r.position).all Char.isWhitespace = true) :
    isBlank (createSegments r).pre = true := by
  have hsplit :
      ((splitLines (r.text.take r.position)).take
          ((splitLines (r.text.take r.position)).length - 20)).flatten ++
        (createSegments r).pre = r.text.take r.position := by
    rw [show (createSegments r).pre =
        ((splitLines (r.text.take r.position)).drop
          ((splitLines (r.text.take r.position)).length - 20)).flatten from rfl]
    rw [flatten_take_drop, flatten_splitLines]
  rw [← hsplit, List.all_append] at h
  exact (Bool.and_eq_true_iff.mp h).2

/-- C5: on a cache miss with a blank windowed context before the cursor,
`getCompletions` resolves immediately with a response whose id is
`"agent-"` followed by the fresh uuid and whose choices are empty; the
state is unchanged and the only effect is the cache lookup — no network
request.  In particular this happens whenever the whole text before the
cursor is whitespace. -/
theorem c5_blank_short_circuit
    (pp : CompletionRequest → CompletionResponse → CompletionResponse)
    (env : CompletionEnv) (r : CompletionRequest) (s : AgentState)
    (h1 : ¬s.status = .notInitialized)
    (h2 : cacheGet s.cache r = none) :
    (isBlank (createSegments r).pre = true →
      getCompletions pp env r s =
        (s, [Effect.cacheRead],
          .resolved { id := "agent-" ++ env.uuidStr, choices := [] } .noop)) ∧
    ((r.text.take r.position).all Char.isWhitespace = true →
      getCompletions pp env r s =
        (s, [Effect.cacheRead],
          .resolved { id := "agent-" ++ env.uuidStr, choices := [] } .noop)) := by
  have main : isBlank (createSegments r).pre = true →
      getCompletions pp env r s =
        (s, [Effect.cacheRead],
          .resolved { id := "agent-" ++ env.uuidStr, choices := [] } .noop) := by
    intro hb
    unfold getCompletions
    rw [if_neg h1, h2]
    simp [hb]
  exact ⟨main, fun hw => main (createSegments_pre_blank_of_all_whitespace r hw)⟩

theorem c5_blank_short_circuit_witness :
    (¬readyState.status = .notInitialized ∧
     cacheGet readyState.cache blankRequest = none ∧
     isBlank (createSegments blankRequest).pre = true ∧
     (blankRequest.text.take blankRequest.position).all Char.isWhitespace = true) ∧
    getCompletions (fun _ resp => resp) okEnv blankRequest readyState =
      (readyState, [Effect.cacheRead],
        .resolved { id := "agent-" ++ okEnv.uuidStr, choices := [] } .noop) :=
  ⟨⟨by decide, rfl, rfl, rfl⟩,
    (c5_blank_short_circuit (fun _ resp => resp) okEnv blankRequest readyState
      (by decide) rfl).2 rfl⟩

/-! ### Claim C7 -/

theorem lookupField_append_left (k : String) (A B : List (String × CfgValue))
    (v : CfgValue) (h : lookupField k A = some v) :
    lookupField k (A ++ B) = some v := by
  induction A with
  | nil => simp [lookupField] at h
  | cons p rest ih =>
      obtain ⟨k1, v1⟩ := p
      by_cases hk : k1 = k
      · simp only [lookupField, if_pos hk] at h ⊢
        exact h
      · simp only [lookupField, if_neg hk] at h ⊢
        exact ih h

theorem lookupField_mergeFields (tf sf : List (String × CfgValue)) (k : String)
    (v w : CfgValue) (hv : lookupField k tf = some v)
    (hw : lookupField k sf = some w) :
    lookupField k (mergeFields tf sf) = some (deepMerge v w) := by
  induction tf with
  | nil => simp [lookupField] at hv
  | cons p rest ih =>
      obtain ⟨k1, v1⟩ := p
      by_cases hk : k1 = k
      · subst hk
        have hv2 : v1 = v := by simpa [lookupField] using hv
        subst hv2
        unfold mergeFields
        rw [hw]
        simp [lookupField]
      · have hv' : lookupField k rest = some v := by
          simpa [lookupField, hk] using hv
        unfold mergeFields
        cases hls : lookupField k1 sf with
        | none =>
            exact show lookupField k ((k1, v1) :: mergeFields rest sf) =
                some (deepMerge v w) by
              simp only [lookupField, if_neg hk]
              exact ih hv'
        | some w1 =>
            exact show lookupField k ((k1, deepMerge v1 w1) :: mergeFields rest sf) =
                some (deepMerge v w) by
              simp only [lookupField, if_neg hk]
              exact ih hv'

/-- C7 counterexample: merging two configs whose `"files"` field is an
array does not replace the current array with the partial's one — npm
`deepmerge`'s default concatenates the two, so the merged field is
`["a", "b"]`, not `["b"]` (and is not deep-equal to `["b"]` either). -/
theorem c7_counterexample :
    deepMerge (.obj [("files", .arr [.str "a"])]) (.obj [("files", .arr [.str "b"])]) =
      .obj [("files", .arr [.str "a", .str "b"])] ∧
    deepMerge (.obj [("files", .arr [.str "a"])]) (.obj [("files", .arr [.str "b"])]) ≠
      .obj [("files", .arr [.str "b"])] ∧
    cfgBeq
      (deepMerge (.obj [("files", .arr [.str "a"])]) (.obj [("files", .arr [.str "b"])]))
      (.obj [("files", .arr [.str "b"])]) = false := by
  refine ⟨rfl, ?_, rfl⟩
  intro h
  have h2 : CfgValue.obj [("files", CfgValue.arr [.str "a", .str "b"])] =
      CfgValue.obj [("files", CfgValue.arr [.str "b"])] := h
  simp at h2

/-- C7 amended: the deep-merge applied by `updateConfig` is recursive on
nested mapping-like structures, and every array field present in both the
current and the partial config is merged by concatenation — the current
config's elements followed by the partial's — not by replacement. -/
theorem c7_amended_merge_semantics (tf sf : List (String × CfgValue)) (k : String)
    (ta sa : List CfgValue) (tn sn : List (String × CfgValue)) :
    (lookupField k tf = some (.arr ta) → lookupField k sf = some (.arr sa) →
      lookupField k (objFields (deepMerge (.obj tf) (.obj sf))) =
        some (.arr (ta ++ sa))) ∧
    (lookupField k tf = some (.obj tn) → lookupField k sf = some (.obj sn) →
      lookupField k (objFields (deepMerge (.obj tf) (.obj sf))) =
        some (deepMerge (.obj tn) (.obj sn))) := by
  constructor
  · intro hv hw
    have := lookupField_mergeFields tf sf k _ _ hv hw
    exact lookupField_append_left k _ _ _ this
  · intro hv hw
    have := lookupField_mergeFields tf sf k _ _ hv hw
    exact lookupField_append_left k _ _ _ this

theorem c7_amended_merge_semantics_witness :
    (lookupField "files" mergeTgt = some (.arr [.str "a"]) ∧
     lookupField "files" mergeSrc = some (.arr [.str "b"]) ∧
     lookupField "nested" mergeTgt = some (.obj [("x", .num 1)]) ∧
     lookupField "nested" mergeSrc = some (.obj [("y", .num 2)])) ∧
    lookupField "files" (objFields (deepMerge (.obj mergeTgt) (.obj mergeSrc))) =
      some (.arr ([.str "a"] ++ [.str "b"])) ∧
    lookupField "nested" (objFields (deepMerge (.obj mergeTgt) (.obj mergeSrc))) =
      some (deepMerge (.obj [("x", .num 1)]) (.obj [("y", .num 2)])) :=
  ⟨⟨rfl, rfl, rfl, rfl⟩,
    (c7_amended_merge_semantics mergeTgt mergeSrc "files" [.str "a"] [.str "b"]
      [("x", .num 1)] [("y", .num 2)]).1 rfl rfl,
    (c7_amended_merge_semantics mergeTgt mergeSrc "nested" [.str "a"] [.str "b"]
      [("x", .num 1)] [("y", .num 2)]).2 rfl rfl⟩

/-! ### Claim C8 -/

/-- C8: the recurring background timer has a fixed 30-second period; on a
tick while the status is `disconnected` the agent runs exactly a health
probe — a health request is issued and the resulting status is whatever
the probe outcome's classification produces, with the probe's rejection
swallowed — and on a tick in any other status the agent does nothing. -/
theorem c8_timer_tick (o : ApiOutcome) (s : AgentState) :
    tryConnectInterval = 30000 ∧
    (s.status = .disconnected →
      timerTick o s = healthCheck o s ∧
      (timerTick o s).1.status = statusRule o s.status ∧
      Effect.apiHealth ∈ (timerTick o s).2) ∧
    (¬s.status = .disconnected → timerTick o s = (s, [])) := by
  refine ⟨rfl, fun h => ?_, fun h => ?_⟩
  · have ht : timerTick o s = healthCheck o s := by
      unfold timerTick
      rw [if_pos h]
    refine ⟨ht, ?_, ?_⟩
    · rw [ht]
      exact callApiStep_fst_status Effect.apiHealth o s
    · rw [ht]
      obtain ⟨t, h2⟩ := callApiStep_snd_eq Effect.apiHealth o s
      have h2' : (healthCheck o s).2 = Effect.apiHealth :: t := h2
      rw [h2']
      simp
  · unfold timerTick
    rw [if_neg h]

theorem c8_timer_tick_witness :
    (disconnectedState.status = .disconnected ∧
      (timerTick .success disconnectedState = healthCheck .success disconnectedState ∧
       (timerTick .success disconnectedState).1.status =
         statusRule .success disconnectedState.status ∧
       Effect.apiHealth ∈ (timerTick .success disconnectedState).2)) ∧
    (¬readyState.status = .disconnected ∧
      timerTick .success readyState = (readyState, [])) :=
  ⟨⟨rfl, (c8_timer_tick .success disconnectedState).2.1 rfl⟩,
   ⟨by decide, (c8_timer_tick .success readyState).2.2 (by decide)⟩⟩

/-! ### Claim C9 -/

theorem clearTimer_not_mem_callApiStep (reqEff : Effect) (o : ApiOutcome) (s : AgentState)
    (hne : reqEff ≠ Effect.clearTimer) :
    Effect.clearTimer ∉ (callApiStep reqEff o s).2 := by
  intro hx
  rcases callApiStep_snd_mem reqEff o s _ hx with h | ⟨st, h⟩
  · exact hne h.symm
  · cases h

theorem clearTimer_not_mem_healthCheck (o : ApiOutcome) (s : AgentState) :
    Effect.clearTimer ∉ (healthCheck o s).2 :=
  clearTimer_not_mem_callApiStep Effect.apiHealth o s (by intro h; cases h)

theorem clearTimer_not_mem_applyConfig (s : AgentState) :
    Effect.clearTimer ∉ (applyConfig s).2 := by
  unfold applyConfig
  by_cases h : optCfgBeq (serverEndpoint s.config) s.authEndpoint = true <;> simp [h]

theorem clearTimer_not_mem_updateConfig (pcfg : CfgValue) (o : ApiOutcome) (s : AgentState) :
    Effect.clearTimer ∉ (updateConfig pcfg o s).2.1 := by
  by_cases h : cfgBeq s.config (deepMerge s.config pcfg) = true
  · have hu : (updateConfig pcfg o s).2.1 = (healthCheck o s).2 := by
      simp [updateConfig, h]
    rw [hu]
    exact clearTimer_not_mem_healthCheck o s
  · have hu : (updateConfig pcfg o s).2.1 =
        (applyConfig { s with config := deepMerge s.config pcfg }).2 ++
          [Effect.emitConfigUpdated] ++
          (healthCheck o (applyConfig { s with config := deepMerge s.config pcfg }).1).2 := by
      simp [updateConfig, h]
    rw [hu]
    intro hx
    rcases List.mem_append.mp hx with hx | hx
    · rcases List.mem_append.mp hx with hx | hx
      · exact clearTimer_not_mem_applyConfig _ hx
      · simp at hx
    · exact clearTimer_not_mem_healthCheck _ _ hx

theorem clearTimer_not_mem_initAgent (cfgOpt : Option CfgValue) (hasClient : Bool)
    (o : ApiOutcome) (s : AgentState) :
    Effect.clearTimer ∉ (initAgent cfgOpt hasClient o s).2.1 := by
  unfold initAgent
  intro hx
  rcases List.mem_append.mp hx with hx | hx
  · rcases List.mem_append.mp hx with hx | hx
    · cases hasClient <;> simp at hx
    · cases cfgOpt with
      | none => simp at hx
      | some cfg => exact clearTimer_not_mem_updateConfig cfg o s hx
  · simp at hx

theorem clearTimer_not_mem_startAuth (o : ApiOutcome) (s : AgentState) :
    Effect.clearTimer ∉ (startAuth o s).2 := by
  unfold startAuth
  by_cases h : (healthCheck o s).1.status = .unauthorized
  · rw [if_pos h]
    intro hx
    rcases List.mem_append.mp hx with hx | hx
    · exact clearTimer_not_mem_healthCheck o s hx
    · simp at hx
  · rw [if_neg h]
    exact clearTimer_not_mem_healthCheck o s

theorem clearTimer_not_mem_postEvent (o : ApiOutcome) (s : AgentState) :
    Effect.clearTimer ∉ (postEvent o s).2.1 := by
  unfold postEvent
  by_cases h : s.status = .notInitialized <;> simp [h]
  exact clearTimer_not_mem_callApiStep Effect.apiEvent o s (by intro hc; cases hc)

theorem clearTimer_not_mem_onAuthUpdated (o : ApiOutcome) (s : AgentState) :
    Effect.clearTimer ∉ (onAuthUpdated o s).2 := by
  unfold onAuthUpdated
  intro hx
  rcases List.mem_cons.mp hx with h | h
  · cases h
  · exact clearTimer_not_mem_healthCheck o s h

theorem clearTimer_not_mem_timerTick (o : ApiOutcome) (s : AgentState) :
    Effect.clearTimer ∉ (timerTick o s).2 := by
  unfold timerTick
  by_cases h : s.status = .disconnected <;> simp [h]
  exact clearTimer_not_mem_healthCheck o s

theorem clearTimer_not_mem_getCompletions
    (pp : CompletionRequest → CompletionResponse → CompletionResponse)
    (env : CompletionEnv) (r : CompletionRequest) (s : AgentState) :
    Effect.clearTimer ∉ (getCompletions pp env r s).2.1 := by
  obtain ⟨u, oc, raw⟩ := env
  unfold getCompletions
  by_cases h1 : s.status = .notInitialized
  · simp [h1]
  · rw [if_neg h1]
    cases hcg : cacheGet s.cache r with
    | some v => simp
    | none =>
        by_cases hb : isBlank (createSegments r).pre = true
        · simp [hb]
        · rw [if_neg hb]
          have hreq :
              (Effect.apiCompletion r.language (createSegments r).pre
                (createSegments r).suf) ≠ Effect.clearTimer := by
            intro hc
            cases hc
          cases oc with
          | success =>
              intro hx
              simp only [List.mem_cons, List.mem_append, List.mem_singleton] at hx
              rcases hx with (hx | hx) | (hx | hx)
              · cases hx
              · exact clearTimer_not_mem_callApiStep _ _ _ hreq hx
              · cases hx
              · simp at hx
          | failure e =>
              intro hx
              simp only [List.mem_cons] at hx
              rcases hx with hx | hx
              · cases hx
              · exact clearTimer_not_mem_callApiStep _ _ _ hreq hx

theorem clearTimer_not_mem_createAgent (d : CfgValue) :
    Effect.clearTimer ∉ (createAgent d).2 := by
  unfold createAgent
  intro hx
  rcases List.mem_cons.mp hx with h | h
  · cases h
  · exact clearTimer_not_mem_applyConfig _ h

/-- C9 counterexample: a concrete agent lifecycle — construction followed
by one call to every public operation and one timer tick — installs the
recurring timer but never cancels it: no `clearTimer` effect occurs
anywhere in the combined trace, so no teardown path was exercised by the
whole public surface. -/
theorem c9_counterexample :
    Effect.setTimer ∈ (createAgent sampleConfig).2 ∧
    Effect.clearTimer ∉
      ((createAgent sampleConfig).2 ++
        (initAgent (some sampleConfig) true .success (createAgent sampleConfig).1).2.1 ++
        (updateConfig (.obj []) .success readyState).2.1 ++
        (getCompletions (fun _ resp => resp) okEnv helloRequest readyState).2.1 ++
        (startAuth .success readyState).2 ++
        (postEvent .success readyState).2.1 ++
        (timerTick .success disconnectedState).2 ++
        (onAuthUpdated .success readyState).2) := by
  constructor
  · decide
  · decide

/-- C9 amended: the recurring reconnect timer is installed once at agent
construction and runs for the agent's whole lifetime: no operation of the
agent — public surface, auth callback, or the tick itself — ever cancels
it (the class has no teardown path producing a `clearTimer`). -/
theorem c9_amended_no_teardown_path
    (d pcfg : CfgValue) (cfgOpt : Option CfgValue) (hasClient : Bool)
    (o : ApiOutcome) (s : AgentState)
    (pp : CompletionRequest → CompletionResponse → CompletionResponse)
    (env : CompletionEnv) (r : CompletionRequest) :
    Effect.setTimer ∈ (createAgent d).2 ∧
    Effect.clearTimer ∉ (createAgent d).2 ∧
    Effect.clearTimer ∉ (initAgent cfgOpt hasClient o s).2.1 ∧
    Effect.clearTimer ∉ (updateConfig pcfg o s).2.1 ∧
    Effect.clearTimer ∉ (getCompletions pp env r s).2.1 ∧
    Effect.clearTimer ∉ (startAuth o s).2 ∧
    Effect.clearTimer ∉ (postEvent o s).2.1 ∧
    Effect.clearTimer ∉ (onAuthUpdated o s).2 ∧
    Effect.clearTimer ∉ (timerTick o s).2 :=
  ⟨List.mem_cons_self _ _,
   clearTimer_not_mem_createAgent d,
   clearTimer_not_mem_initAgent cfgOpt hasClient o s,
   clearTimer_not_mem_updateConfig pcfg o s,
   clearTimer_not_mem_getCompletions pp env r s,
   clearTimer_not_mem_startAuth o s,
   clearTimer_not_mem_postEvent o s,
   clearTimer_not_mem_onAuthUpdated o s,
   clearTimer_not_mem_timerTick o s⟩

end Tabby
